import Mathlib

/-!
Shallow embedding of the callbacks module of probflow
(src/probflow/callbacks.py): the Callback variants LearningRateScheduler,
KLWeightScheduler, MonitorMetric, MonitorParameter and EarlyStopping.

Python float values that the callbacks store and compare are modelled by
the type PFloat below: a rational number, positive infinity (np.Inf, the
initial best of EarlyStopping) or NaN (np.nan, the initial current_metric
of MonitorMetric).  The code never does float arithmetic - it only stores
values and compares them with the strict order - so this model is exact
on every program point the claims mention.

The Trainer (self.model) is an external collaborator: its mutators
(set_learning_rate, set_kl_weight, stop_training) are modelled by
returning the argument of each call alongside the new callback state, and
its accessors (metric, posterior_mean, the zero-argument metric_fn
closure of EarlyStopping) by a stream of per-call return values.
-/

/-- Model of the Python float values flowing through the callbacks:
NaN (np.nan), positive infinity (np.Inf) or a finite value. -/
inductive PFloat where
  | nan : PFloat
  | inf : PFloat
  | val : ℚ → PFloat
deriving DecidableEq

namespace PFloat

/-- The strict order on Python floats used by the comparison of EarlyStopping
with self.best: NaN compares false with everything, Inf is the greatest,
finite values compare as rationals. -/
def lt : PFloat → PFloat → Bool
  | _, nan => false
  | nan, _ => false
  | inf, inf => false
  | val _, inf => true
  | inf, val _ => false
  | val a, val b => decide (a < b)

theorem lt_self (v : PFloat) : v.lt v = false := by
  cases v <;> simp [lt]

end PFloat

/-- Model of an arbitrary Python value, as far as the callbacks
distinguish them: ints, floats, strings and None. -/
inductive PyVal where
  | pyInt : ℤ → PyVal
  | pyFloat : PFloat → PyVal
  | pyStr : String → PyVal
  | pyNone : PyVal
deriving DecidableEq

/-- isinstance(v, float) for the modelled Python values. -/
def PyVal.isFloat : PyVal → Bool
  | pyFloat _ => true
  | _ => false

/-- isinstance(v, int) for the modelled Python values. -/
def PyVal.isInt : PyVal → Bool
  | pyInt _ => true
  | _ => false

/-- The exceptions the constructors raise. -/
inductive PyErr where
  | typeError : String → PyErr
  | valueError : String → PyErr
deriving DecidableEq

/-- A Python object passed as the fn argument of a scheduler: either not
callable, or a callable from the epoch number to a Python value. -/
inductive FnArg where
  | notCallable : FnArg
  | callable : (ℕ → PyVal) → FnArg

/-- A Python object passed as the metric_fn argument of EarlyStopping:
either not callable, or a zero-argument accessor, modelled by the stream
of float values its successive invocations return (index k is the value
returned by the accessor on its k-th call, counting from 0). -/
inductive AccArg where
  | notCallable : AccArg
  | callable : (ℕ → PFloat) → AccArg

/-! ## LearningRateScheduler -/

/-- State of a LearningRateScheduler (fields of the Python object). -/
structure LearningRateScheduler where
  fn : ℕ → PyVal
  current_epoch : ℕ
  current_lr : PyVal
  epochs : List ℕ
  learning_rate : List PyVal

namespace LearningRateScheduler

/-- The state stored by a successful __init__ (lines 83-87): the schedule,
current_epoch = 0, current_lr = 0 (a Python int), empty histories. -/
def mk0 (f : ℕ → PyVal) : LearningRateScheduler :=
  { fn := f, current_epoch := 0, current_lr := .pyInt 0
    epochs := [], learning_rate := [] }

/-- LearningRateScheduler.__init__ (lines 74-87): raise TypeError if fn is
not callable; probe fn with epoch argument 1 and raise TypeError if the
result is not a float; otherwise store the state. -/
def init : FnArg → Except PyErr LearningRateScheduler
  | .notCallable => .error (.typeError "fn must be a callable")
  | .callable f =>
    if (f 1).isFloat then .ok (mk0 f)
    else .error (.typeError "fn must return a float")

/-- LearningRateScheduler.on_epoch_end (lines 90-96).  The second
component of the result is the argument of the self.model.set_learning_rate
call made during this invocation. -/
def on_epoch_end (s : LearningRateScheduler) : LearningRateScheduler × PyVal :=
  let e := s.current_epoch + 1
  let lr := s.fn e
  ({ fn := s.fn, current_epoch := e, current_lr := lr
     epochs := s.epochs ++ [e], learning_rate := s.learning_rate ++ [lr] }, lr)

/-- n consecutive calls of on_epoch_end; the second component collects the
arguments of the successive set_learning_rate calls, in order. -/
def run (s : LearningRateScheduler) : ℕ → LearningRateScheduler × List PyVal
  | 0 => (s, [])
  | n + 1 =>
    let p := s.run n
    ((p.1.on_epoch_end).1, p.2 ++ [(p.1.on_epoch_end).2])

end LearningRateScheduler

/-! ## KLWeightScheduler -/

/-- State of a KLWeightScheduler (fields of the Python object). -/
structure KLWeightScheduler where
  fn : ℕ → PyVal
  current_epoch : ℕ
  current_w : PyVal
  epochs : List ℕ
  kl_weights : List PyVal

namespace KLWeightScheduler

/-- The state stored by a successful __init__ (lines 125-129). -/
def mk0 (f : ℕ → PyVal) : KLWeightScheduler :=
  { fn := f, current_epoch := 0, current_w := .pyInt 0
    epochs := [], kl_weights := [] }

/-- KLWeightScheduler.__init__ (lines 116-129): same validation as
LearningRateScheduler.__init__. -/
def init : FnArg → Except PyErr KLWeightScheduler
  | .notCallable => .error (.typeError "fn must be a callable")
  | .callable f =>
    if (f 1).isFloat then .ok (mk0 f)
    else .error (.typeError "fn must return a float")

/-- KLWeightScheduler.on_epoch_end (lines 132-138).  The second component
of the result is the argument of the self.model.set_kl_weight call. -/
def on_epoch_end (s : KLWeightScheduler) : KLWeightScheduler × PyVal :=
  let e := s.current_epoch + 1
  let w := s.fn e
  ({ fn := s.fn, current_epoch := e, current_w := w
     epochs := s.epochs ++ [e], kl_weights := s.kl_weights ++ [w] }, w)

/-- n consecutive calls of on_epoch_end, collecting the set_kl_weight
call arguments. -/
def run (s : KLWeightScheduler) : ℕ → KLWeightScheduler × List PyVal
  | 0 => (s, [])
  | n + 1 =>
    let p := s.run n
    ((p.1.on_epoch_end).1, p.2 ++ [(p.1.on_epoch_end).2])

end KLWeightScheduler

/-! ## Exception-modelling variants of the scheduler epoch hooks

In Python, self.fn(...) or self.model.set_learning_rate(...) can raise, in
which case the exception propagates out of on_epoch_end with the
assignments already executed left in place.  The variants below replay
lines 90-96 resp. 132-138 statement by statement: the schedule and the
Trainer mutator are passed as Except-valued functions (they stand for
self.fn and the Trainer method), and the result is the state as left
behind together with the exception, if one was raised. -/

/-- LearningRateScheduler.on_epoch_end with a possibly raising schedule
and Trainer mutator (lines 90-96, statement by statement). -/
def LearningRateScheduler.on_epoch_end_exc {E : Type} (fn : ℕ → Except E PyVal)
    (set_learning_rate : PyVal → Except E Unit) (s : LearningRateScheduler) :
    LearningRateScheduler × Option E :=
  let s1 := { s with current_epoch := s.current_epoch + 1 }
  match fn s1.current_epoch with
  | .error err => (s1, some err)
  | .ok v =>
    let s2 := { s1 with current_lr := v }
    match set_learning_rate v with
    | .error err => (s2, some err)
    | .ok _ =>
      ({ s2 with epochs := s2.epochs ++ [s2.current_epoch]
                 learning_rate := s2.learning_rate ++ [v] }, none)

/-- KLWeightScheduler.on_epoch_end with a possibly raising schedule and
Trainer mutator (lines 132-138, statement by statement). -/
def KLWeightScheduler.on_epoch_end_exc {E : Type} (fn : ℕ → Except E PyVal)
    (set_kl_weight : PyVal → Except E Unit) (s : KLWeightScheduler) :
    KLWeightScheduler × Option E :=
  let s1 := { s with current_epoch := s.current_epoch + 1 }
  match fn s1.current_epoch with
  | .error err => (s1, some err)
  | .ok v =>
    let s2 := { s1 with current_w := v }
    match set_kl_weight v with
    | .error err => (s2, some err)
    | .ok _ =>
      ({ s2 with epochs := s2.epochs ++ [s2.current_epoch]
                 kl_weights := s2.kl_weights ++ [v] }, none)

/-! ## MonitorMetric -/

/-- State of a MonitorMetric (fields of the Python object).  The resolved
metric function and the validation data generator are opaque handles on
external collaborators (MetricResolver, DataSource); the metric
computation the Trainer does over them is modelled by the value handed to each
on_epoch_end call, so those two fields are not part of this state. -/
structure MonitorMetric where
  current_metric : PFloat
  current_epoch : ℕ
  metrics : List PFloat
  epochs : List ℕ
  verbose : Bool

namespace MonitorMetric

/-- MonitorMetric.__init__ (lines 161-174): current_metric starts as
np.nan, current_epoch as 0, the histories empty. -/
def init (verbose : Bool) : MonitorMetric :=
  { current_metric := .nan, current_epoch := 0
    metrics := [], epochs := [], verbose := verbose }

/-- MonitorMetric.on_epoch_end (lines 177-187) when the metric
computation of the Trainer returns m. The verbose print is an output side channel with
no effect on the state. -/
def on_epoch_end (m : PFloat) (s : MonitorMetric) : MonitorMetric :=
  { current_metric := m, current_epoch := s.current_epoch + 1
    metrics := s.metrics ++ [m], epochs := s.epochs ++ [s.current_epoch + 1]
    verbose := s.verbose }

/-- MonitorMetric.on_epoch_end when the metric computation of the Trainer may
raise: self.model.metric(...) is the first expression evaluated, so on an
exception no field has been assigned yet. -/
def on_epoch_end_exc {E : Type} (r : Except E PFloat) (s : MonitorMetric) :
    MonitorMetric × Option E :=
  match r with
  | .error err => (s, some err)
  | .ok m => (s.on_epoch_end m, none)

/-- n consecutive calls of on_epoch_end, the i-th (from 0) receiving the
metric value ms i from the Trainer. -/
def run (ms : ℕ → PFloat) (s : MonitorMetric) : ℕ → MonitorMetric
  | 0 => s
  | n + 1 => (s.run ms n).on_epoch_end (ms n)

end MonitorMetric

/-! ## MonitorParameter -/

/-- State of a MonitorParameter.  P is the type of the snapshots that
posterior_mean of the Trainer returns, F the type of the params filter.
current_params is None (none) before the first epoch, afterwards the last
snapshot. -/
structure MonitorParameter (P F : Type) where
  params : Option F
  current_params : Option P
  current_epoch : ℕ
  parameter_values : List (Option P)
  epochs : List ℕ

namespace MonitorParameter

/-- MonitorParameter.__init__ (lines 198-205).  It receives x and an
optional y but its body stores only params and the fresh counters and
histories; X and Y are the types of the data arguments. -/
def init {X Y P F : Type} (x : X) (y : Option Y) (params : Option F) :
    MonitorParameter P F :=
  { params := params, current_params := none, current_epoch := 0
    parameter_values := [], epochs := [] }

/-- MonitorParameter.on_epoch_end (lines 208-213) when posterior_mean(self.params)
of the Trainer returns p: the snapshot is stored and
appended unchanged. -/
def on_epoch_end {P F : Type} (p : P) (s : MonitorParameter P F) :
    MonitorParameter P F :=
  { s with current_params := some p, current_epoch := s.current_epoch + 1
           parameter_values := s.parameter_values ++ [some p]
           epochs := s.epochs ++ [s.current_epoch + 1] }

/-- n consecutive calls of on_epoch_end, the i-th (from 0) receiving the
snapshot ps i from posterior_mean of the Trainer. -/
def run {P F : Type} (ps : ℕ → P) (s : MonitorParameter P F) :
    ℕ → MonitorParameter P F
  | 0 => s
  | n + 1 => (s.run ps n).on_epoch_end (ps n)

end MonitorParameter

/-! ## EarlyStopping -/

/-- State of an EarlyStopping callback.  metric_fn models the stored
zero-argument accessor: index k is the value it returns on its k-th
invocation (counting from 0); patience and count are Python ints. -/
structure EarlyStopping where
  metric_fn : ℕ → PFloat
  patience : ℤ
  best : PFloat
  count : ℤ

namespace EarlyStopping

/-- EarlyStopping.__init__ (lines 239-253): TypeError if patience is not
an int, ValueError if it is negative, TypeError if metric_fn is not
callable; otherwise store metric_fn and patience, best = np.Inf,
count = 0. -/
def init (metric_fn : AccArg) (patience : PyVal) : Except PyErr EarlyStopping :=
  match patience with
  | .pyInt p =>
    if p < 0 then .error (.valueError "patience must be non-negative")
    else
      match metric_fn with
      | .notCallable => .error (.typeError "metric_fn must be a callable")
      | .callable f => .ok { metric_fn := f, patience := p, best := .inf, count := 0 }
  | _ => .error (.typeError "patience must be an int")

/-- EarlyStopping.on_epoch_end (lines 257-266), on its k-th invocation
(counting from 0): read metric = self.metric_fn(); on strict improvement
update best and reset count, otherwise increment count and call
self.model.stop_training() if count > patience.  The Boolean result
records whether stop_training was called during this invocation. -/
def on_epoch_end (s : EarlyStopping) (k : ℕ) : EarlyStopping × Bool :=
  let metric := s.metric_fn k
  if metric.lt s.best then
    ({ s with best := metric, count := 0 }, false)
  else
    let c := s.count + 1
    ({ s with count := c }, decide (c > s.patience))

/-- n consecutive calls of on_epoch_end; the list collects, call by call,
whether stop_training was signalled on that call. -/
def run (s : EarlyStopping) : ℕ → EarlyStopping × List Bool
  | 0 => (s, [])
  | n + 1 =>
    let p := s.run n
    ((p.1.on_epoch_end n).1, p.2 ++ [(p.1.on_epoch_end n).2])

/-- An EarlyStopping whose accessor returns, call by call, the finite
values of the list vs (and NaN past its end), with the given patience,
fresh from a successful construction (best = Inf, count = 0). -/
def ofSeq (vs : List ℚ) (p : ℤ) : EarlyStopping :=
  { metric_fn := fun k => ((vs.map PFloat.val).getD k .nan)
    patience := p, best := .inf, count := 0 }

end EarlyStopping

/-! ## Run characterisations -/

theorem LearningRateScheduler.run_lr_spec (f : ℕ → PyVal) (n : ℕ) :
    ((LearningRateScheduler.mk0 f).run n).1.fn = f ∧
    ((LearningRateScheduler.mk0 f).run n).1.current_epoch = n ∧
    ((LearningRateScheduler.mk0 f).run n).1.epochs = List.range' 1 n ∧
    ((LearningRateScheduler.mk0 f).run n).1.learning_rate = (List.range' 1 n).map f ∧
    ((LearningRateScheduler.mk0 f).run n).2 = (List.range' 1 n).map f := by
  induction n with
  | zero => simp [LearningRateScheduler.run, LearningRateScheduler.mk0]
  | succ n ih =>
    obtain ⟨h1, h2, h3, h4, h5⟩ := ih
    simp only [LearningRateScheduler.run, LearningRateScheduler.on_epoch_end]
    refine ⟨h1, by rw [h2], ?_, ?_, ?_⟩
    · rw [h3, h2, List.range'_1_concat]
      simp [Nat.add_comm]
    · rw [h4, h1, h2, List.range'_1_concat, List.map_append]
      simp [Nat.add_comm]
    · rw [h5, h1, h2, List.range'_1_concat, List.map_append]
      simp [Nat.add_comm]

theorem KLWeightScheduler.run_kl_spec (f : ℕ → PyVal) (n : ℕ) :
    ((KLWeightScheduler.mk0 f).run n).1.fn = f ∧
    ((KLWeightScheduler.mk0 f).run n).1.current_epoch = n ∧
    ((KLWeightScheduler.mk0 f).run n).1.epochs = List.range' 1 n ∧
    ((KLWeightScheduler.mk0 f).run n).1.kl_weights = (List.range' 1 n).map f ∧
    ((KLWeightScheduler.mk0 f).run n).2 = (List.range' 1 n).map f := by
  induction n with
  | zero => simp [KLWeightScheduler.run, KLWeightScheduler.mk0]
  | succ n ih =>
    obtain ⟨h1, h2, h3, h4, h5⟩ := ih
    simp only [KLWeightScheduler.run, KLWeightScheduler.on_epoch_end]
    refine ⟨h1, by rw [h2], ?_, ?_, ?_⟩
    · rw [h3, h2, List.range'_1_concat]
      simp [Nat.add_comm]
    · rw [h4, h1, h2, List.range'_1_concat, List.map_append]
      simp [Nat.add_comm]
    · rw [h5, h1, h2, List.range'_1_concat, List.map_append]
      simp [Nat.add_comm]

theorem MonitorMetric.run_metric_spec (v : Bool) (ms : ℕ → PFloat) (n : ℕ) :
    ((MonitorMetric.init v).run ms n).current_epoch = n ∧
    ((MonitorMetric.init v).run ms n).epochs = List.range' 1 n ∧
    ((MonitorMetric.init v).run ms n).metrics = (List.range n).map ms := by
  induction n with
  | zero => simp [MonitorMetric.run, MonitorMetric.init]
  | succ n ih =>
    obtain ⟨h1, h2, h3⟩ := ih
    simp only [MonitorMetric.run, MonitorMetric.on_epoch_end]
    refine ⟨by rw [h1], ?_, ?_⟩
    · rw [h2, h1, List.range'_1_concat]
      simp [Nat.add_comm]
    · rw [h3, List.range_succ, List.map_append]
      simp

theorem MonitorParameter.run_param_spec {P F : Type} (ps : ℕ → P) (pr : Option F)
    (n : ℕ) :
    ((MonitorParameter.init () (none : Option Unit) pr : MonitorParameter P F).run
      ps n).current_epoch = n ∧
    ((MonitorParameter.init () (none : Option Unit) pr : MonitorParameter P F).run
      ps n).epochs = List.range' 1 n ∧
    ((MonitorParameter.init () (none : Option Unit) pr : MonitorParameter P F).run
      ps n).parameter_values = (List.range n).map (fun k => some (ps k)) := by
  induction n with
  | zero => simp [MonitorParameter.run, MonitorParameter.init]
  | succ n ih =>
    obtain ⟨h1, h2, h3⟩ := ih
    simp only [MonitorParameter.run, MonitorParameter.on_epoch_end]
    refine ⟨by rw [h1], ?_, ?_⟩
    · rw [h2, h1, List.range'_1_concat]
      simp [Nat.add_comm]
    · rw [h3, List.range_succ, List.map_append]
      simp

/-! ## Claims -/

/-- Claim C1, counterexample to the stated scenario: with patience = 1 and
accessor sequence [5.0, 4.0, 4.0], the code signals no stop on the third
call (the second call improves, 4.0 < 5.0, resetting count to 0, so the
third call reaches count = 1, which does not exceed patience = 1),
contradicting the claim that stop is signaled after call 3. -/
theorem c1_counterexample_seq_5_4_4 :
    (((EarlyStopping.ofSeq [5, 4, 4] 1).run 3).2.getD 2 true) = false ∧
    ((EarlyStopping.ofSeq [5, 4, 4] 1).run 3).2 ≠ [false, false, true] := by
  decide

/-- Claim C1 (amended): EarlyStopping.on_epoch_end signals stop_training
exactly on those calls where the observed value is not strictly below the
best value seen so far and the resulting count of consecutive
non-improving calls exceeds patience.  With patience = 0 the first call
only establishes best (accessor sequence [5.0, 5.0]: no stop on call 1,
best becomes 5.0) and a second call with value 5.0 signals stop; with
patience = 1 the sequence [5.0, 4.0, 4.0] signals no stop on any call
(call 2 improves and resets count; call 3 reaches count = 1, not above
patience), while the sequence [5.0, 5.0, 5.0] signals no stop after call
2 (count = 1) and stop after call 3 (count = 2). -/
theorem c1_early_stopping_stop_signals :
    (∀ (s : EarlyStopping) (k : ℕ),
      (s.on_epoch_end k).2 = true ↔
        (PFloat.lt (s.metric_fn k) s.best = false ∧ s.count + 1 > s.patience)) ∧
    ((EarlyStopping.ofSeq [5, 5] 0).run 1).1.best = PFloat.val 5 ∧
    ((EarlyStopping.ofSeq [5, 5] 0).run 1).2 = [false] ∧
    ((EarlyStopping.ofSeq [5, 5] 0).run 2).2 = [false, true] ∧
    ((EarlyStopping.ofSeq [5, 4, 4] 1).run 3).2 = [false, false, false] ∧
    ((EarlyStopping.ofSeq [5, 5, 5] 1).run 3).2 = [false, false, true] := by
  refine ⟨fun s k => ?_, by decide, by decide, by decide, by decide, by decide⟩
  by_cases h : PFloat.lt (s.metric_fn k) s.best
  · simp [EarlyStopping.on_epoch_end, h]
  · simp [EarlyStopping.on_epoch_end, h]

/-- Claim C2: after e calls to on_epoch_end on a LearningRateScheduler
constructed with schedule f, epochs equals [1, ..., e], learning_rate
equals [f 1, ..., f e], and the i-th set_learning_rate call of the
Trainer received f i; the same holds for KLWeightScheduler with
kl_weights and set_kl_weight. -/
theorem c2_scheduler_histories (f : ℕ → PyVal) (e : ℕ) :
    ((LearningRateScheduler.mk0 f).run e).1.epochs = List.range' 1 e ∧
    ((LearningRateScheduler.mk0 f).run e).1.learning_rate = (List.range' 1 e).map f ∧
    ((LearningRateScheduler.mk0 f).run e).2 = (List.range' 1 e).map f ∧
    ((KLWeightScheduler.mk0 f).run e).1.epochs = List.range' 1 e ∧
    ((KLWeightScheduler.mk0 f).run e).1.kl_weights = (List.range' 1 e).map f ∧
    ((KLWeightScheduler.mk0 f).run e).2 = (List.range' 1 e).map f := by
  obtain ⟨_, _, h3, h4, h5⟩ := LearningRateScheduler.run_lr_spec f e
  obtain ⟨_, _, g3, g4, g5⟩ := KLWeightScheduler.run_kl_spec f e
  exact ⟨h3, h4, h5, g3, g4, g5⟩

/-- Claim C3: EarlyStopping uses strict improvement only: an
on_epoch_end call whose accessor value equals the current best increments
count (never resets it to 0) and leaves best unchanged. -/
theorem c3_early_stopping_tie_nonimproving (s : EarlyStopping) (k : ℕ)
    (h : s.metric_fn k = s.best) :
    (s.on_epoch_end k).1.best = s.best ∧ (s.on_epoch_end k).1.count = s.count + 1 := by
  simp [EarlyStopping.on_epoch_end, h, PFloat.lt_self]

/-- Witness for C3: with best = 5.0, count = 0 and an accessor returning
5.0, the call keeps best at 5.0 and moves count to 1. -/
theorem c3_witness :
    ((EarlyStopping.mk (fun _ => PFloat.val 5) 0 (PFloat.val 5) 0).on_epoch_end 0).1.best =
      PFloat.val 5 ∧
    ((EarlyStopping.mk (fun _ => PFloat.val 5) 0 (PFloat.val 5) 0).on_epoch_end 0).1.count =
      0 + 1 :=
  c3_early_stopping_tie_nonimproving
    (EarlyStopping.mk (fun _ => PFloat.val 5) 0 (PFloat.val 5) 0) 0 rfl

/-- Claim C4: construction-time validation is fail-fast: the scheduler
constructors raise TypeError when fn is not callable or when probing fn
with epoch argument 1 does not return a float; the EarlyStopping
constructor raises TypeError when patience is not an int, ValueError when
patience is negative, and TypeError when the accessor is not callable.
Each error is produced by the constructor itself, so no state is ever
built in a failing case. -/
theorem c4_construction_validation :
    LearningRateScheduler.init .notCallable =
      .error (.typeError "fn must be a callable") ∧
    (∀ f : ℕ → PyVal, (f 1).isFloat = false →
      LearningRateScheduler.init (.callable f) =
        .error (.typeError "fn must return a float")) ∧
    KLWeightScheduler.init .notCallable =
      .error (.typeError "fn must be a callable") ∧
    (∀ f : ℕ → PyVal, (f 1).isFloat = false →
      KLWeightScheduler.init (.callable f) =
        .error (.typeError "fn must return a float")) ∧
    (∀ (a : AccArg) (v : PyVal), v.isInt = false →
      EarlyStopping.init a v = .error (.typeError "patience must be an int")) ∧
    (∀ (a : AccArg) (p : ℤ), p < 0 →
      EarlyStopping.init a (.pyInt p) =
        .error (.valueError "patience must be non-negative")) ∧
    (∀ p : ℤ, 0 ≤ p →
      EarlyStopping.init .notCallable (.pyInt p) =
        .error (.typeError "metric_fn must be a callable")) := by
  refine ⟨rfl, ?_, rfl, ?_, ?_, ?_, ?_⟩
  · intro f h
    simp [LearningRateScheduler.init, h]
  · intro f h
    simp [KLWeightScheduler.init, h]
  · intro a v h
    cases v <;> simp_all [EarlyStopping.init, PyVal.isInt]
  · intro a p h
    simp [EarlyStopping.init, h]
  · intro p h
    simp only [EarlyStopping.init]
    rw [if_neg (by omega)]

/-- Witness for C4: concrete failing constructions, one per validation
branch with a hypothesis. -/
theorem c4_witness :
    LearningRateScheduler.init (.callable fun _ => .pyStr "x") =
      .error (.typeError "fn must return a float") ∧
    KLWeightScheduler.init (.callable fun _ => .pyStr "x") =
      .error (.typeError "fn must return a float") ∧
    EarlyStopping.init (.callable fun _ => PFloat.val 1) (.pyFloat (PFloat.val 1)) =
      .error (.typeError "patience must be an int") ∧
    EarlyStopping.init (.callable fun _ => PFloat.val 1) (.pyInt (-1)) =
      .error (.valueError "patience must be non-negative") ∧
    EarlyStopping.init .notCallable (.pyInt 0) =
      .error (.typeError "metric_fn must be a callable") :=
  ⟨c4_construction_validation.2.1 _ rfl,
   c4_construction_validation.2.2.2.1 _ rfl,
   c4_construction_validation.2.2.2.2.1 _ _ rfl,
   c4_construction_validation.2.2.2.2.2.1 _ _ (by decide),
   c4_construction_validation.2.2.2.2.2.2 0 (by decide)⟩

/-- Claim C5: for a MonitorMetric, current_metric is NaN before any call
to on_epoch_end; after n completed calls, epochs and metrics both have
length n and epochs equals [1, ..., n]. -/
theorem c5_monitor_metric_invariants (v : Bool) (ms : ℕ → PFloat) (n : ℕ) :
    (MonitorMetric.init v).current_metric = PFloat.nan ∧
    ((MonitorMetric.init v).run ms n).epochs.length = n ∧
    ((MonitorMetric.init v).run ms n).metrics.length = n ∧
    ((MonitorMetric.init v).run ms n).epochs = List.range' 1 n := by
  obtain ⟨h1, h2, h3⟩ := MonitorMetric.run_metric_spec v ms n
  refine ⟨rfl, ?_, ?_, h2⟩
  · rw [h2]
    simp
  · rw [h3]
    simp

/-- Claim C6: MonitorParameter is a pure recorder: each on_epoch_end call
appends exactly the snapshot returned by posterior_mean of the Trainer
for that call, without transformation, and current_params is None before
the first call; over a run from a fresh construction the recorded history
is exactly, call by call, the sequence of returned snapshots. -/
theorem c6_monitor_parameter_passthrough :
    (∀ (P F : Type) (p : P) (s : MonitorParameter P F),
      (s.on_epoch_end p).parameter_values = s.parameter_values ++ [some p] ∧
      (s.on_epoch_end p).current_params = some p) ∧
    (∀ (X Y P F : Type) (x : X) (y : Option Y) (pr : Option F),
      (MonitorParameter.init x y pr : MonitorParameter P F).current_params = none) ∧
    (∀ (P F : Type) (ps : ℕ → P) (pr : Option F) (n : ℕ),
      ((MonitorParameter.init () (none : Option Unit) pr :
          MonitorParameter P F).run ps n).parameter_values =
        (List.range n).map fun k => some (ps k)) :=
  ⟨fun _ _ _ _ => ⟨rfl, rfl⟩, fun _ _ _ _ _ _ _ => rfl,
   fun _ _ ps pr n => (MonitorParameter.run_param_spec ps pr n).2.2⟩

/-- Claim C7, counterexample: two MonitorParameter constructions that
differ only in the data argument x produce identical states, so the data
is not kept as part of the state. -/
theorem c7_counterexample_data_not_kept :
    (MonitorParameter.init (0 : ℚ) (none : Option ℚ) (none : Option ℚ) :
        MonitorParameter ℚ ℚ) =
      MonitorParameter.init (1 : ℚ) (none : Option ℚ) (none : Option ℚ) ∧
    (0 : ℚ) ≠ 1 := by
  exact ⟨rfl, by norm_num⟩

/-- Claim C7 (amended): a MonitorParameter constructed with data x (and
optional y) accepts those arguments for interface symmetry with
MonitorMetric but does not keep them: the constructed state is
independent of x and y, and only the params filter (with the fresh
counters and histories) is stored. -/
theorem c7_monitor_parameter_discards_data :
    ∀ (X Y P F : Type) (x w : X) (y z : Option Y) (pr : Option F),
      (MonitorParameter.init x y pr : MonitorParameter P F) =
        MonitorParameter.init w z pr ∧
      (MonitorParameter.init x y pr : MonitorParameter P F).params = pr ∧
      (MonitorParameter.init x y pr : MonitorParameter P F).current_epoch = 0 ∧
      (MonitorParameter.init x y pr : MonitorParameter P F).parameter_values = [] ∧
      (MonitorParameter.init x y pr : MonitorParameter P F).epochs = [] :=
  fun _ _ _ _ _ _ _ _ _ => ⟨rfl, rfl, rfl, rfl, rfl⟩

/-- Claim C8: MonitorMetric.on_epoch_end is atomic on failure: if the
metric computation of the Trainer raises, the exception propagates and
the callback state, every field included, is exactly as it was before
the call. -/
theorem c8_monitor_metric_atomic_on_failure (E : Type) (err : E) (s : MonitorMetric) :
    MonitorMetric.on_epoch_end_exc (.error err) s = (s, some err) ∧
    (MonitorMetric.on_epoch_end_exc (.error err) s).1.current_metric = s.current_metric ∧
    (MonitorMetric.on_epoch_end_exc (.error err) s).1.current_epoch = s.current_epoch ∧
    (MonitorMetric.on_epoch_end_exc (.error err) s).1.metrics = s.metrics ∧
    (MonitorMetric.on_epoch_end_exc (.error err) s).1.epochs = s.epochs :=
  ⟨rfl, rfl, rfl, rfl, rfl⟩

/-- Claim C9: the scheduler epoch hooks are not atomic on failure: if the
schedule or the Trainer mutator raises during an on_epoch_end of a
LearningRateScheduler or KLWeightScheduler whose histories have length
equal to current_epoch, then after the exception current_epoch has been
incremented while epochs and the value history kept their old length, so
the length of epochs no longer equals current_epoch. -/
theorem c9_scheduler_not_atomic_on_failure :
    (∀ (E : Type) (fnE : ℕ → Except E PyVal) (setE : PyVal → Except E Unit)
        (s t : LearningRateScheduler) (err : E),
      s.epochs.length = s.current_epoch →
      s.learning_rate.length = s.current_epoch →
      LearningRateScheduler.on_epoch_end_exc fnE setE s = (t, some err) →
      t.current_epoch = s.current_epoch + 1 ∧ t.epochs.length = s.current_epoch ∧
        t.learning_rate.length = s.current_epoch ∧
        t.epochs.length ≠ t.current_epoch) ∧
    (∀ (E : Type) (fnE : ℕ → Except E PyVal) (setE : PyVal → Except E Unit)
        (s t : KLWeightScheduler) (err : E),
      s.epochs.length = s.current_epoch →
      s.kl_weights.length = s.current_epoch →
      KLWeightScheduler.on_epoch_end_exc fnE setE s = (t, some err) →
      t.current_epoch = s.current_epoch + 1 ∧ t.epochs.length = s.current_epoch ∧
        t.kl_weights.length = s.current_epoch ∧
        t.epochs.length ≠ t.current_epoch) := by
  constructor
  · intro E fnE setE s t err h1 h2 hrun
    simp only [LearningRateScheduler.on_epoch_end_exc] at hrun
    split at hrun
    · simp only [Prod.mk.injEq, Option.some.injEq] at hrun
      obtain ⟨ht, _⟩ := hrun
      subst ht
      refine ⟨rfl, h1, h2, ?_⟩
      simp only
      omega
    · split at hrun
      · simp only [Prod.mk.injEq, Option.some.injEq] at hrun
        obtain ⟨ht, _⟩ := hrun
        subst ht
        refine ⟨rfl, h1, h2, ?_⟩
        simp only
        omega
      · simp at hrun
  · intro E fnE setE s t err h1 h2 hrun
    simp only [KLWeightScheduler.on_epoch_end_exc] at hrun
    split at hrun
    · simp only [Prod.mk.injEq, Option.some.injEq] at hrun
      obtain ⟨ht, _⟩ := hrun
      subst ht
      refine ⟨rfl, h1, h2, ?_⟩
      simp only
      omega
    · split at hrun
      · simp only [Prod.mk.injEq, Option.some.injEq] at hrun
        obtain ⟨ht, _⟩ := hrun
        subst ht
        refine ⟨rfl, h1, h2, ?_⟩
        simp only
        omega
      · simp at hrun


/-- Witness for C9: a schedule raising on the first call of a freshly
constructed scheduler leaves current_epoch at 1 with both histories still
empty, for both scheduler variants. -/
theorem c9_witness :
    (LearningRateScheduler.mk (fun _ => PyVal.pyNone) 1 (.pyInt 0) [] []).current_epoch =
      (LearningRateScheduler.mk0 fun _ => PyVal.pyNone).current_epoch + 1 ∧
    (LearningRateScheduler.mk (fun _ => PyVal.pyNone) 1 (.pyInt 0) [] []).epochs.length ≠
      (LearningRateScheduler.mk (fun _ => PyVal.pyNone) 1 (.pyInt 0) [] []).current_epoch ∧
    (KLWeightScheduler.mk (fun _ => PyVal.pyNone) 1 (.pyInt 0) [] []).current_epoch =
      (KLWeightScheduler.mk0 fun _ => PyVal.pyNone).current_epoch + 1 ∧
    (KLWeightScheduler.mk (fun _ => PyVal.pyNone) 1 (.pyInt 0) [] []).epochs.length ≠
      (KLWeightScheduler.mk (fun _ => PyVal.pyNone) 1 (.pyInt 0) [] []).current_epoch := by
  have h := c9_scheduler_not_atomic_on_failure.1 ℕ (fun _ => .error 7) (fun _ => .ok ())
    (LearningRateScheduler.mk0 fun _ => PyVal.pyNone)
    (LearningRateScheduler.mk (fun _ => PyVal.pyNone) 1 (.pyInt 0) [] []) 7 rfl rfl rfl
  have g := c9_scheduler_not_atomic_on_failure.2 ℕ (fun _ => .error 7) (fun _ => .ok ())
    (KLWeightScheduler.mk0 fun _ => PyVal.pyNone)
    (KLWeightScheduler.mk (fun _ => PyVal.pyNone) 1 (.pyInt 0) [] []) 7 rfl rfl rfl
  exact ⟨h.1, h.2.2.2, g.1, g.2.2.2⟩

/-- Claim C10: the stopped condition of EarlyStopping is not sticky: a
call whose value strictly improves on best resets count to 0, updates
best and does not signal stop, regardless of any earlier stop; and a call
whose value does not improve while count is already at least patience
signals stop_training again on that call. -/
theorem c10_early_stopping_not_sticky (s : EarlyStopping) (k : ℕ) :
    (PFloat.lt (s.metric_fn k) s.best = true →
      (s.on_epoch_end k).1.count = 0 ∧
      (s.on_epoch_end k).1.best = s.metric_fn k ∧ (s.on_epoch_end k).2 = false) ∧
    (PFloat.lt (s.metric_fn k) s.best = false → s.patience ≤ s.count →
      (s.on_epoch_end k).2 = true) := by
  constructor
  · intro h
    simp [EarlyStopping.on_epoch_end, h]
  · intro h hc
    simp [EarlyStopping.on_epoch_end, h]
    omega

/-- Witness for C10: after a stop (count = 3, patience = 0, best = 5.0),
an improving value 4.0 resets count and best without signalling; and with
patience = 1, count = 2, best = 4.0, a non-improving value 9.0 signals
stop again. -/
theorem c10_witness :
    ((EarlyStopping.mk (fun _ => PFloat.val 4) 0 (PFloat.val 5) 3).on_epoch_end 0).1.count =
      0 ∧
    ((EarlyStopping.mk (fun _ => PFloat.val 4) 0 (PFloat.val 5) 3).on_epoch_end 0).2 =
      false ∧
    ((EarlyStopping.mk (fun _ => PFloat.val 9) 1 (PFloat.val 4) 2).on_epoch_end 0).2 =
      true :=
  ⟨((c10_early_stopping_not_sticky
      (EarlyStopping.mk (fun _ => PFloat.val 4) 0 (PFloat.val 5) 3) 0).1 (by decide)).1,
   ((c10_early_stopping_not_sticky
      (EarlyStopping.mk (fun _ => PFloat.val 4) 0 (PFloat.val 5) 3) 0).1 (by decide)).2.2,
   (c10_early_stopping_not_sticky
      (EarlyStopping.mk (fun _ => PFloat.val 9) 1 (PFloat.val 4) 2) 0).2 (by decide)
      (by decide)⟩
